import Mathlib

/-
  Shallow embedding of `.scanner/scan_and_review.py` from the Code-Scan-Ai
  repository.  Pure functions of the script become Lean functions; the
  external effects (environment variables, the git subprocess, the findings
  file, the two HTTP services) become explicit inputs gathered in a `World`
  record.  Python exceptions are modelled with `Except PyExn`.
-/

namespace CodeScanAI

/-- A parsed JSON value as produced by `json.load`.  Numbers are modelled as
integers (the findings schema only uses integer line numbers); object fields
model the parsed Python dict, so keys are unique. -/
inductive Json where
  | null
  | bool (b : Bool)
  | num (n : Int)
  | str (s : String)
  | arr (xs : List Json)
  | obj (fields : List (String × Json))

/-- Dictionary lookup on the fields of a parsed JSON object. -/
def lookupField : List (String × Json) → String → Option Json
  | [], _ => none
  | (k, v) :: rest, key => if k = key then some v else lookupField rest key

/-- Python truthiness of a parsed JSON value. -/
def jsonTruthy : Json → Bool
  | .null => false
  | .bool b => b
  | .num n => n != 0
  | .str s => s != ""
  | .arr xs => !xs.isEmpty
  | .obj fields => !fields.isEmpty

/-- Python exceptions that the script can raise or catch. -/
inductive PyExn where
  | keyError (key : String)
  | indexError
  | typeError
  | attributeError
deriving DecidableEq, Repr

mutual

/-- Python repr() of a parsed JSON value (strings are shown quoted; the
escaping repr performs inside strings is not modelled, and no theorem
depends on container rendering). -/
def pyRepr : Json → String
  | .null => "None"
  | .bool true => "True"
  | .bool false => "False"
  | .num n => toString n
  | .str s => "\x27" ++ s ++ "\x27"
  | .arr xs => "[" ++ String.intercalate ", " (pyReprList xs) ++ "]"
  | .obj fields => "\x7b" ++ String.intercalate ", " (pyReprFields fields) ++ "\x7d"

def pyReprList : List Json → List String
  | [] => []
  | x :: xs => pyRepr x :: pyReprList xs

def pyReprFields : List (String × Json) → List String
  | [] => []
  | (k, v) :: fields => ("\x27" ++ k ++ "\x27: " ++ pyRepr v) :: pyReprFields fields

end

/-- Python str() rendering, as used by f-string interpolation. -/
def pyStr : Json → String
  | .str s => s
  | j => pyRepr j

/-- A Python subscript key: a string key or an integer index. -/
inductive PyKey where
  | str (s : String)
  | idx (i : Int)

/-- Python subscripting `value[key]`, with KeyError on a missing dict key,
IndexError out of range, TypeError on unsupported combinations, and
negative indices counting from the end. -/
def pySubscript : Json → PyKey → Except PyExn Json
  | .obj fields, .str k =>
    match lookupField fields k with
    | some v => .ok v
    | none => .error (.keyError k)
  | .obj _, .idx i => .error (.keyError (toString i))
  | .arr xs, .idx i =>
    let j : Int := if i < 0 then (xs.length : Int) + i else i
    if 0 ≤ j ∧ j.toNat < xs.length then .ok (xs.getD j.toNat .null)
    else .error .indexError
  | .arr _, .str _ => .error .typeError
  | .str s, .idx i =>
    let j : Int := if i < 0 then (s.length : Int) + i else i
    if 0 ≤ j ∧ j.toNat < s.length then .ok (.str (String.mk [s.data.getD j.toNat ' ']))
    else .error .indexError
  | .str _, .str _ => .error .typeError
  | _, _ => .error .typeError

/-- Python `value.get(key, default)`: AttributeError unless `value` is a
dict. -/
def pyGetD : Json → String → Json → Except PyExn Json
  | .obj fields, k, dflt => .ok ((lookupField fields k).getD dflt)
  | _, _, _ => .error .attributeError

/-- Python `len(value)`: TypeError on values with no length. -/
def pyLen : Json → Except PyExn Nat
  | .arr xs => .ok xs.length
  | .obj fields => .ok fields.length
  | .str s => .ok s.length
  | _ => .error .typeError

/-- Coercion used where the script does integer arithmetic on a JSON value
(Python bools are ints; anything else raises TypeError there). -/
def pyToInt : Json → Except PyExn Int
  | .num n => .ok n
  | .bool b => .ok (if b then 1 else 0)
  | _ => .error .typeError

/-- Python truthiness of an `os.environ.get` result (absent or empty is
falsy). -/
def envTruthy : Option String → Bool
  | none => false
  | some s => s != ""

/-- Outcome of one `requests.post` to the text-generation service.
`netError` is a RequestException raised by the post itself; `httpError` is a
non-2xx status (raise_for_status raises HTTPError, a RequestException);
`badJsonBody` is a 2xx response whose body is not JSON (`response.json()`
raises requests JSONDecodeError, also a RequestException); `okJson` is a 2xx
response with a parsed JSON body. -/
inductive HttpOutcome where
  | netError (msg : String)
  | httpError (msg : String)
  | badJsonBody (msg : String)
  | okJson (body : Json)

/-- The external text-generation service, as a function of the two prompts
sent to it. -/
def Oracle : Type := String → String → HttpOutcome

/-- The field extraction `response.json()["choices"][0]["message"]["content"]`
performed by `call_openai` on a parsed response body; its exceptions are not
RequestException and so escape the `except` clause. -/
def jsonExtractContent (body : Json) : Except PyExn String := do
  let choices ← pySubscript body (.str "choices")
  let choice0 ← pySubscript choices (.idx 0)
  let message ← pySubscript choice0 (.str "message")
  let content ← pySubscript message (.str "content")
  return pyStr content

/-- `call_openai(system_prompt, user_prompt)`: the missing-key guard, then
the HTTP call with RequestException absorbed into an error string, then the
unguarded field extraction. -/
def call_openai (apiKey : Option String) (oracle : Oracle)
    (system_prompt user_prompt : String) : Except PyExn String :=
  if !envTruthy apiKey then .ok "Error: OPENAI_API_KEY not set."
  else
    match oracle system_prompt user_prompt with
    | .netError e => .ok ("Error connecting to AI: " ++ e)
    | .httpError e => .ok ("Error connecting to AI: " ++ e)
    | .badJsonBody e => .ok ("Error connecting to AI: " ++ e)
    | .okJson body => jsonExtractContent body

/-- Result of the `git diff` subprocess: `failed` models a
CalledProcessError, `output` its captured stdout. -/
inductive GitResult where
  | failed (msg : String)
  | output (stdout : String)

/-- `get_pr_diff()`: returns the diff text, or None when the subprocess
raised CalledProcessError. -/
def get_pr_diff : GitResult → Option String
  | .failed _ => none
  | .output s => some s

/-- State of the findings file on disk: absent, present but not valid JSON,
or present and parsed. -/
inductive FileRead where
  | missing
  | malformed
  | parsed (j : Json)

/-- `load_scanner_results(filepath)`: None on FileNotFoundError and on
JSONDecodeError, otherwise the parsed document. -/
def load_scanner_results : FileRead → Option Json
  | .missing => none
  | .malformed => none
  | .parsed j => some j

/-- Helper for `readlines`: split a character stream into lines, each
keeping its terminating newline (universal-newline translation of CR is not
modelled; all inputs in this development use LF). -/
def splitLinesAux : List Char → List Char → List String
  | [], [] => []
  | [], acc => [String.mk acc.reverse]
  | c :: rest, acc =>
    if c = '\n' then String.mk (acc.reverse ++ ['\n']) :: splitLinesAux rest []
    else splitLinesAux rest (c :: acc)

/-- Python `f.readlines()` on a file whose content is `s`. -/
def readlines (s : String) : List String := splitLinesAux s.data []

/-- The file system visible to the script: `none` is a path whose open
raises FileNotFoundError. -/
def FSys : Type := String → Option String

/-- `get_code_snippet(file_path, start_line, end_line)`: readlines, index
adjustment `max(0, start_line - 1)` and `min(len(lines), end_line)`, then
the Python slice (a still-negative stop index counts from the end of the
list), with FileNotFoundError turned into the sentinel text. -/
def get_code_snippet (fsys : FSys) (file_path : String)
    (start_line end_line : Int) : String :=
  match fsys file_path with
  | none => "Code snippet for " ++ file_path ++ " not found."
  | some content =>
    let lines := readlines content
    let n : Int := lines.length
    let start : Int := max 0 (start_line - 1)
    let stop : Int := min n end_line
    let stopIdx : Nat := if stop < 0 then (n + stop).toNat else stop.toNat
    String.join ((lines.take stopIdx).drop start.toNat)

/-- The fixed system prompt of `get_ai_summary`. -/
def summarySystemPrompt : String :=
  "You are an expert code reviewer. Review the following git diff and provide a concise, high-level summary of the changes. Focus on the \x27why\x27 of the change, not just listing the files. Use bullet points."

/-- `get_ai_summary(diff_content)`. -/
def get_ai_summary (apiKey : Option String) (oracle : Oracle)
    (diff_content : String) : Except PyExn String :=
  call_openai apiKey oracle summarySystemPrompt
    ("Git Diff:\n\n" ++ diff_content)

/-- The fixed system prompt of `get_ai_fixes`. -/
def fixSystemPrompt : String :=
  "You are an expert security developer and code reviewer. A static analysis tool has found the following issue. Your task is to:\n1. Briefly explain the *risk* of this issue in simple terms.\n2. Provide a clear, actionable code suggestion to fix it.\n3. Format your response clearly with \x27Risk:\x27 and \x27Suggestion:\x27 labels."

/-- The per-finding user prompt of `get_ai_fixes`. -/
def fixUserPrompt (path : String) (start_line end_line : Int)
    (message code_snippet : String) : String :=
  "**File:** `" ++ path ++ "` (Lines " ++ toString start_line ++ "-"
    ++ toString end_line ++ ")\n\n**Issue:** " ++ message
    ++ "\n\n**Vulnerable Code Snippet:**\n```\n" ++ code_snippet ++ "\n```"

/-- The `full_suggestion` header prefix of `get_ai_fixes`. -/
def fullSuggestion (path : String) (start_line end_line : Int)
    (fix_suggestion : String) : String :=
  "**File: `" ++ path ++ "` (Lines " ++ toString start_line ++ "-"
    ++ toString end_line ++ ")**\n\n" ++ fix_suggestion

/-- The `for finding in findings` loop body of `get_ai_fixes`: the four
field accesses (KeyError on a missing field), snippet extraction, the
model call, and the header prefix.  The integer coercion of the line
fields raises the TypeError that Python raises inside `get_code_snippet`
when a line field is not a number; the ordering difference is observable
only for an ill-typed record naming an unreadable file, which no theorem
relies on. -/
def fixesLoop (apiKey : Option String) (oracle : Oracle) (fsys : FSys) :
    List Json → Except PyExn (List String)
  | [] => .ok []
  | finding :: rest => do
    let pathJ ← pySubscript finding (.str "path")
    let startJ ← pySubscript finding (.str "start")
    let startLineJ ← pySubscript startJ (.str "line")
    let endJ ← pySubscript finding (.str "end")
    let endLineJ ← pySubscript endJ (.str "line")
    let extraJ ← pySubscript finding (.str "extra")
    let messageJ ← pySubscript extraJ (.str "message")
    let path := pyStr pathJ
    let start_line ← pyToInt startLineJ
    let end_line ← pyToInt endLineJ
    let message := pyStr messageJ
    let code_snippet := get_code_snippet fsys path start_line end_line
    let fix_suggestion ← call_openai apiKey oracle fixSystemPrompt
      (fixUserPrompt path start_line end_line message code_snippet)
    let tail ← fixesLoop apiKey oracle fsys rest
    return fullSuggestion path start_line end_line fix_suggestion :: tail

/-- `get_ai_fixes(scanner_results)`: the len() of `.get("results", [])` in
the opening print (AttributeError on a non-dict, TypeError on an unsized
value), then the guard `if not findings or not isinstance(findings, list)`
returning `[]`, then the loop. -/
def get_ai_fixes (apiKey : Option String) (oracle : Oracle) (fsys : FSys)
    (scanner_results : Json) : Except PyExn (List String) := do
  let r0 ← pyGetD scanner_results "results" (.arr [])
  let _ ← pyLen r0
  let findings ← pyGetD scanner_results "results" .null
  match findings with
  | .arr (f :: rest) => fixesLoop apiKey oracle fsys (f :: rest)
  | _ => .ok []

/-- Python `sep.join(items)`. -/
def joinSep (sep : String) : List String → String
  | [] => ""
  | [x] => x
  | x :: y :: rest => x ++ sep ++ joinSep sep (y :: rest)

/-- `format_final_comment(summary, fixes)`: the pure Markdown template. -/
def format_final_comment (summary : String) (fixes : List String) : String :=
  let body := "## 🤖 CodeScan-AI Review\n\n### 📝 PR Summary\n"
    ++ summary ++ "\n\n---\n\n"
  match fixes with
  | [] => body ++ "### ✅ No Anomalies Found\n\nMy automated scan found no critical issues. Great job!"
  | _ :: _ => body
    ++ "### 🚨 Anomalies Detected\n\nI found the following issues that should be addressed:\n\n"
    ++ joinSep "\n\n---\n\n" fixes

/-- Outcome of the comment-creation POST to the collaboration endpoint. -/
inductive PostOutcome where
  | success
  | failure (msg : String) (body : Option String)

/-- `post_to_pr(comment_body)`: every RequestException is caught and logged
(the response body when present), so the call never raises; the returned
flag is the success log line. -/
def post_to_pr : PostOutcome → Except PyExn Bool
  | .success => .ok true
  | .failure _ _ => .ok false

/-- All inputs of one run: the five environment variables, the git
subprocess result, the findings file, the file system, the generation
service, and the delivery outcome. -/
structure World where
  OPENAI_API_KEY : Option String
  GITHUB_TOKEN : Option String
  REPO_NAME : Option String
  PR_NUMBER : Option String
  BASE_REF : Option String
  gitDiff : GitResult
  scannerFile : FileRead
  fsys : FSys
  oracle : Oracle
  delivery : PostOutcome

/-- Observable outcome of `main()`: the process exit code (1 both for
`sys.exit(1)` and for an uncaught exception), whether the Summary Generator
was invoked, whether delivery was attempted, and the formatted comment when
one was built. -/
structure RunResult where
  exitCode : Nat
  summaryRequested : Bool
  posted : Bool
  comment : Option String
deriving DecidableEq, Repr

/-- The `all([...])` configuration check at the top of `main()`. -/
def configAll (w : World) : Bool :=
  envTruthy w.OPENAI_API_KEY && envTruthy w.GITHUB_TOKEN
    && envTruthy w.REPO_NAME && envTruthy w.PR_NUMBER && envTruthy w.BASE_REF

/-- `main()`: configuration check, diff acquisition with the `if not diff`
guard, findings loading with the `if not scanner_results` guard, the two
generation steps (whose uncaught exceptions abort the process with exit
code 1), formatting, and delivery (which never raises). -/
def main (w : World) : RunResult :=
  if !configAll w then ⟨1, false, false, none⟩
  else
    match get_pr_diff w.gitDiff with
    | none => ⟨1, false, false, none⟩
    | some diff =>
      if diff = "" then ⟨1, false, false, none⟩
      else
        match load_scanner_results w.scannerFile with
        | none => ⟨1, false, false, none⟩
        | some scanner_results =>
          if !jsonTruthy scanner_results then ⟨1, false, false, none⟩
          else
            match get_ai_summary w.OPENAI_API_KEY w.oracle diff with
            | .error _ => ⟨1, true, false, none⟩
            | .ok ai_summary =>
              match get_ai_fixes w.OPENAI_API_KEY w.oracle w.fsys scanner_results with
              | .error _ => ⟨1, true, false, none⟩
              | .ok ai_fixes =>
                let final_comment := format_final_comment ai_summary ai_fixes
                let _ := post_to_pr w.delivery
                ⟨0, true, true, some final_comment⟩

/- Derived notions used to state the claims. -/

/-- The four required fields of a finding record, when they are present and
of the schema types (`path` string, `start.line` and `end.line` integers,
`extra.message` string). -/
def findingFields (f : Json) : Option (String × Int × Int × String) :=
  match pySubscript f (.str "path"), pySubscript f (.str "start"),
      pySubscript f (.str "end"), pySubscript f (.str "extra") with
  | .ok (.str p), .ok st, .ok en, .ok ex =>
    match pySubscript st (.str "line"), pySubscript en (.str "line"),
        pySubscript ex (.str "message") with
    | .ok (.num a), .ok (.num b), .ok (.str m) => some (p, a, b, m)
    | _, _, _ => none
  | _, _, _, _ => none

/-- A finding record carrying all four required fields at schema types. -/
def wellFormedFinding (f : Json) : Prop := (findingFields f).isSome = true

/-- The Suggestion the Fix Generator produces for one well-formed finding
(junk on an ill-formed one, where the loop instead raises). -/
def suggestionFor (apiKey : Option String) (oracle : Oracle) (fsys : FSys)
    (f : Json) : String :=
  match findingFields f with
  | none => ""
  | some (p, a, b, m) =>
    let code_snippet := get_code_snippet fsys p a b
    let fix :=
      match call_openai apiKey oracle fixSystemPrompt
          (fixUserPrompt p a b m code_snippet) with
      | .ok t => t
      | .error _ => ""
    fullSuggestion p a b fix

/-- Every call to the generation service returns a value instead of
raising: true for a missing key, a network error, a non-2xx status, a
non-JSON body, and a body of the expected shape — false only for a 2xx
well-formed JSON body lacking the expected nested fields. -/
def benignCall (apiKey : Option String) (oracle : Oracle) : Prop :=
  ∀ system_prompt user_prompt : String,
    (call_openai apiKey oracle system_prompt user_prompt).isOk = true

/-- A `results` field (or its absence) that the Fix Generator turns into an
empty Suggestion list without raising: absent, a string, an object, or an
empty list. -/
def resultsEmptyish : Option Json → Bool
  | none => true
  | some (.str _) => true
  | some (.obj _) => true
  | some (.arr []) => true
  | _ => false

/-- The clamped 1-based line window the spec describes: the lines with
1-based index from `max 1 start_line` through `min lineCount end_line`, in
order. -/
def lineWindow (lines : List String) (start_line end_line : Int) :
    List String :=
  let lo : Int := max 1 start_line
  let hi : Int := min (lines.length : Int) end_line
  (List.range' lo.toNat (hi + 1 - lo).toNat).map (fun i => lines.getD (i - 1) "")

/-- `needle` occurs contiguously inside `hay`. -/
def strContains (hay needle : String) : Prop :=
  ∃ u v : String, hay = u ++ needle ++ v

/- Helper lemmas. -/

theorem strContains_self (s : String) : strContains s s :=
  ⟨"", "", by simp⟩

theorem strContains_appendLeft (a : String) {r x : String}
    (h : strContains r x) : strContains (a ++ r) x := by
  obtain ⟨u, v, rfl⟩ := h
  exact ⟨a ++ u, v, by simp [String.append_assoc]⟩

theorem strContains_appendRight (b : String) {r x : String}
    (h : strContains r x) : strContains (r ++ b) x := by
  obtain ⟨u, v, rfl⟩ := h
  exact ⟨u, v ++ b, by simp [String.append_assoc]⟩

theorem strContains_joinSep (sep : String) {l : List String} {x : String}
    (hx : x ∈ l) : strContains (joinSep sep l) x := by
  induction l with
  | nil => cases hx
  | cons y ys ih =>
    cases hx with
    | head =>
      cases ys with
      | nil => exact strContains_self x
      | cons z zs =>
        exact strContains_appendRight _ (strContains_appendRight _ (strContains_self x))
    | tail _ h =>
      cases ys with
      | nil => cases h
      | cons z zs =>
        exact strContains_appendLeft _ (ih h)

theorem exbind_ok {α β : Type} {e : Type} (a : α) (f : α → Except e β) :
    (Except.ok a >>= f) = f a := rfl

theorem exbind_err {α β : Type} {e : Type} (x : e) (f : α → Except e β) :
    ((Except.error x : Except e α) >>= f) = Except.error x := rfl

/- ------------------------------------------------------------------ -/
/- Claim C7 -/

/-- C7: for every file path the file system cannot open, snippet extraction
returns the fixed "not found" sentinel text instead of raising, whatever
the requested line range. -/
theorem C7_snippet_missing_file (fsys : FSys) (p : String) (s e : Int)
    (h : fsys p = none) :
    get_code_snippet fsys p s e = "Code snippet for " ++ p ++ " not found." := by
  unfold get_code_snippet
  rw [h]

/-- The empty file system used to witness C7. -/
def fs7 : FSys := fun _ => none

/-- Witness for C7 at a concrete nonexistent path and range. -/
theorem C7_witness :
    fs7 "missing.py" = none
    ∧ get_code_snippet fs7 "missing.py" 1 3
        = "Code snippet for missing.py not found." :=
  ⟨rfl, C7_snippet_missing_file fs7 "missing.py" 1 3 rfl⟩

/- ------------------------------------------------------------------ -/
/- Claim C9 -/

/-- A findings record lacking the `path` field used for C9. -/
def finding9 : Json :=
  .obj [("start", .obj [("line", .num 3)]), ("end", .obj [("line", .num 4)]),
    ("extra", .obj [("message", .str "hardcoded secret")])]

/-- The findings document of C9: a non-empty `results` list whose record
lacks `path`. -/
def scanner9 : Json := .obj [("results", .arr [finding9])]

/-- The generation service used for C9 (always a network error, which the
script absorbs, so the only possible abort is the field access). -/
def oracle9 : Oracle := fun _ _ => .netError "down"

/-- The world of C9: full configuration, a non-empty diff, the findings
document with the field-lacking record. -/
def w9 : World :=
  ⟨some "k", some "t", some "o/r", some "7", some "main", .output "+x",
    .parsed scanner9, fun _ => none, oracle9, .success⟩

/-- C9: on a findings document whose non-empty `results` list contains a
record lacking `path`, the Fix Generator raises an uncaught KeyError, and
the run aborts with exit code 1 before any report is formatted or any
delivery is attempted. -/
theorem C9_missing_field_aborts :
    get_ai_fixes (some "k") oracle9 (fun _ => none) scanner9
        = .error (.keyError "path")
    ∧ main w9 = ⟨1, true, false, none⟩ :=
  ⟨rfl, rfl⟩

/- ------------------------------------------------------------------ -/
/- Claim C3 -/

/-- The two-line file used for the C3 counterexample. -/
def fs3 : FSys := fun p => if p = "a.py" then some "line one\nline two\n" else none

/-- C3 counterexample: for the readable two-line file and the range
`[5, 7]`, which lies fully beyond the line count, snippet extraction
returns the empty string, not the full available content of the file. -/
theorem C3_counterexample :
    fs3 "a.py" = some "line one\nline two\n"
    ∧ get_code_snippet fs3 "a.py" 5 7 = ""
    ∧ "line one\nline two\n" ≠ "" :=
  ⟨rfl, by decide, by decide⟩

/-- C3 amended: for every readable file and a start line beyond the file
line count, snippet extraction returns the empty string (the content of
the empty clamped range) and never raises, whatever the end line. -/
theorem C3_amended_empty_snippet (fsys : FSys) (p content : String)
    (s e : Int) (hf : fsys p = some content)
    (hs : ((readlines content).length : Int) < s) :
    get_code_snippet fsys p s e = "" := by
  unfold get_code_snippet
  rw [hf]
  have h1 : (readlines content).length ≤ (max 0 (s - 1)).toNat := by omega
  have h2 : ∀ k : Nat,
      ((readlines content).take k).drop (max 0 (s - 1)).toNat = [] := by
    intro k
    apply List.drop_eq_nil_of_le
    calc ((readlines content).take k).length ≤ (readlines content).length := by
          rw [List.length_take]; omega
      _ ≤ _ := h1
  show String.join (((readlines content).take _).drop (max 0 (s - 1)).toNat) = ""
  rw [h2]
  rfl

/-- Witness for C3 at the concrete two-line file and range `[5, 9]`. -/
theorem C3_witness :
    fs3 "a.py" = some "line one\nline two\n"
    ∧ ((readlines "line one\nline two\n").length : Int) < 5
    ∧ get_code_snippet fs3 "a.py" 5 9 = "" :=
  ⟨rfl, by decide,
    C3_amended_empty_snippet fs3 "a.py" "line one\nline two\n" 5 9 rfl (by decide)⟩

/- ------------------------------------------------------------------ -/
/- Claim C10 -/

/-- C10: a run whose diff subprocess succeeds with empty output behaves
exactly like a run whose diff subprocess failed — exit code 1 and the
Summary Generator never invoked. -/
theorem C10_empty_diff (w : World) (m : String) :
    main {w with gitDiff := .output ""} = main {w with gitDiff := .failed m}
    ∧ (main {w with gitDiff := .output ""}).exitCode = 1
    ∧ (main {w with gitDiff := .output ""}).summaryRequested = false := by
  cases w
  refine ⟨rfl, ?_, ?_⟩ <;> (unfold main; split <;> rfl)

/- ------------------------------------------------------------------ -/
/- Claim C6 -/

/-- The two-line file used for C6. -/
def fs6 : FSys := fun p => if p = "b.py" then some "alpha\nbeta\n" else none

/-- C6 counterexample: for the range `[1, -1]` on a readable two-line file,
the clamping rule of the claim selects no lines (its clamped window is
empty), but the code returns the first line, because the negative stop
index survives `min` and Python slicing counts it from the end of the
list. -/
theorem C6_counterexample :
    fs6 "b.py" = some "alpha\nbeta\n"
    ∧ get_code_snippet fs6 "b.py" 1 (-1) = "alpha\n"
    ∧ String.join (lineWindow (readlines "alpha\nbeta\n") 1 (-1)) = ""
    ∧ ("alpha\n" : String) ≠ "" :=
  ⟨rfl, by decide, by decide, by decide⟩

theorem slice_eq_window (l : List String) (s e : Int) (he : 0 ≤ e) :
    ((l.take (if min (l.length : Int) e < 0 then
        ((l.length : Int) + min (l.length : Int) e).toNat
      else (min (l.length : Int) e).toNat)).drop (max 0 (s - 1)).toNat)
      = (List.range' (max 1 s).toNat
          ((min (l.length : Int) e + 1 - max 1 s).toNat)).map
            (fun i => l.getD (i - 1) "") := by
  have hn : (0 : Int) ≤ (l.length : Int) := by omega
  rw [if_neg (by omega)]
  apply List.ext_getElem
  · simp only [List.length_drop, List.length_take, List.length_map,
      List.length_range']
    omega
  · intro i h1 h2
    rw [List.getElem_drop, List.getElem_take, List.getElem_map,
      List.getElem_range']
    simp only [List.length_drop, List.length_take] at h1
    have h3 : (max 1 s).toNat + 1 * i - 1 = (max 0 (s - 1)).toNat + i := by
      omega
    rw [h3, List.getD_eq_getElem]

/-- C6 amended: for every readable file, every start line, and every
non-negative end line, snippet extraction returns exactly the text of the
clamped 1-based window (start clamped up to 1, end clamped down to the line
count); a negative end line instead engages end-relative Python slicing. -/
theorem C6_amended_clamped_window (fsys : FSys) (p content : String)
    (s e : Int) (hf : fsys p = some content) (he : 0 ≤ e) :
    get_code_snippet fsys p s e
      = String.join (lineWindow (readlines content) s e) := by
  unfold get_code_snippet lineWindow
  rw [hf]
  exact congrArg String.join (slice_eq_window (readlines content) s e he)

/-- Witness for C6 at the concrete two-line file with a start below 1 and
an end beyond the line count. -/
theorem C6_witness :
    fs6 "b.py" = some "alpha\nbeta\n"
    ∧ (0 : Int) ≤ 99
    ∧ get_code_snippet fs6 "b.py" (-3) 99
        = String.join (lineWindow (readlines "alpha\nbeta\n") (-3) 99) :=
  ⟨rfl, by decide,
    C6_amended_clamped_window fs6 "b.py" "alpha\nbeta\n" (-3) 99 rfl (by decide)⟩

/- ------------------------------------------------------------------ -/
/- Claim C8 -/

/-- C8: the Report Formatter is a pure template — the Summary text appears
verbatim in the Report; a non-empty Suggestion list yields the "Anomalies
Detected" section with every Suggestion present, joined by the blank-line
and separator sequence; an empty list yields the fixed "No Anomalies
Found" success message. -/
theorem C8_report_formatter (summary : String) (fixes : List String) :
    strContains (format_final_comment summary fixes) summary
    ∧ (fixes ≠ [] →
        strContains (format_final_comment summary fixes)
          "### 🚨 Anomalies Detected"
        ∧ strContains (format_final_comment summary fixes)
            (joinSep "\n\n---\n\n" fixes)
        ∧ ∀ f ∈ fixes, strContains (format_final_comment summary fixes) f)
    ∧ (fixes = [] →
        strContains (format_final_comment summary fixes)
          "### ✅ No Anomalies Found\n\nMy automated scan found no critical issues. Great job!") := by
  cases fixes with
  | nil =>
    refine ⟨?_, fun h => absurd rfl h, fun _ => ?_⟩
    · exact strContains_appendRight _
        (strContains_appendRight _
          (strContains_appendLeft _ (strContains_self summary)))
    · exact strContains_appendLeft _ (strContains_self _)
  | cons y ys =>
    refine ⟨?_, fun _ => ⟨?_, ?_, ?_⟩, fun h => by cases h⟩
    · exact strContains_appendRight _
        (strContains_appendRight _
          (strContains_appendRight _
            (strContains_appendLeft _ (strContains_self summary))))
    · refine strContains_appendRight _ (strContains_appendLeft _ ?_)
      exact ⟨"", "\n\nI found the following issues that should be addressed:\n\n",
        by decide⟩
    · exact strContains_appendLeft _ (strContains_self _)
    · intro f hf
      exact strContains_appendLeft _ (strContains_joinSep _ hf)

/-- Witness for C8 at a concrete summary and both an empty and a non-empty
Suggestion list. -/
theorem C8_witness :
    strContains (format_final_comment "SUM" ["fix one", "fix two"]) "SUM"
    ∧ strContains (format_final_comment "SUM" ["fix one", "fix two"])
        "### 🚨 Anomalies Detected"
    ∧ strContains (format_final_comment "SUM" [])
        "### ✅ No Anomalies Found\n\nMy automated scan found no critical issues. Great job!" :=
  ⟨(C8_report_formatter "SUM" ["fix one", "fix two"]).1,
    ((C8_report_formatter "SUM" ["fix one", "fix two"]).2.1 (by decide)).1,
    (C8_report_formatter "SUM" []).2.2 rfl⟩

/- ------------------------------------------------------------------ -/
/- Claim C2 -/

theorem findingFields_eq {f : Json} {p : String} {a b : Int} {m : String}
    (h : findingFields f = some (p, a, b, m)) :
    ∃ st en ex,
      pySubscript f (.str "path") = .ok (.str p)
      ∧ pySubscript f (.str "start") = .ok st
      ∧ pySubscript st (.str "line") = .ok (.num a)
      ∧ pySubscript f (.str "end") = .ok en
      ∧ pySubscript en (.str "line") = .ok (.num b)
      ∧ pySubscript f (.str "extra") = .ok ex
      ∧ pySubscript ex (.str "message") = .ok (.str m) := by
  unfold findingFields at h
  split at h
  next p2 st en ex h1 h2 h3 h4 =>
    split at h
    next a2 b2 m2 h5 h6 h7 =>
      simp only [Option.some.injEq, Prod.mk.injEq] at h
      obtain ⟨hp, ha, hb, hm⟩ := h
      subst hp; subst ha; subst hb; subst hm
      exact ⟨st, en, ex, h1, h2, h5, h3, h6, h4, h7⟩
    next => exact absurd h (by simp)
  next => exact absurd h (by simp)

theorem fixesLoop_map (apiKey : Option String) (oracle : Oracle) (fsys : FSys)
    (l : List Json) (hb : benignCall apiKey oracle)
    (hwf : ∀ f ∈ l, wellFormedFinding f) :
    fixesLoop apiKey oracle fsys l
      = .ok (l.map (suggestionFor apiKey oracle fsys)) := by
  induction l with
  | nil => rfl
  | cons f rest ih =>
    obtain ⟨⟨p, a, b, m⟩, hff⟩ :=
      Option.isSome_iff_exists.mp (hwf f (List.mem_cons_self f rest))
    obtain ⟨st, en, ex, h1, h2, h3, h4, h5, h6, h7⟩ := findingFields_eq hff
    rcases hcall : call_openai apiKey oracle fixSystemPrompt
        (fixUserPrompt (pyStr (.str p)) a b (pyStr (.str m))
          (get_code_snippet fsys (pyStr (.str p)) a b)) with err | t
    case error =>
      have := hb fixSystemPrompt (fixUserPrompt (pyStr (.str p)) a b
        (pyStr (.str m)) (get_code_snippet fsys (pyStr (.str p)) a b))
      rw [hcall] at this
      exact absurd this (by simp [Except.isOk, Except.toBool])
    case ok =>
      have hrest := ih (fun g hg => hwf g (List.mem_cons_of_mem f hg))
      simp only [pyStr] at hcall
      simp only [fixesLoop, h1, h2, h3, h4, h5, h6, h7, exbind_ok, pyToInt,
        List.map_cons, hrest, hcall]
      simp only [suggestionFor, hff, pyStr, hcall]
      rfl

/-- C2: for every findings document whose `results` field is a list of
records each carrying the four required fields, and every outcome of the
generation service that the script absorbs, the Fix Generator returns one
Suggestion per Finding, in input order (so the output is the elementwise
image of the batch — same length, same order); in particular an empty
batch yields the empty Suggestion list, not an error. -/
theorem C2_fix_generator_length_order (apiKey : Option String)
    (oracle : Oracle) (fsys : FSys) (flds : List (String × Json))
    (l : List Json)
    (hres : lookupField flds "results" = some (.arr l))
    (hb : benignCall apiKey oracle)
    (hwf : ∀ f ∈ l, wellFormedFinding f) :
    get_ai_fixes apiKey oracle fsys (.obj flds)
      = .ok (l.map (suggestionFor apiKey oracle fsys)) := by
  unfold get_ai_fixes
  simp only [pyGetD, hres, Option.getD_some, exbind_ok, pyLen]
  cases l with
  | nil => rfl
  | cons f rest => exact fixesLoop_map apiKey oracle fsys (f :: rest) hb hwf

/-- A well-formed finding for the C2 witness. -/
def finding2a : Json :=
  .obj [("path", .str "app.py"), ("start", .obj [("line", .num 1)]),
    ("end", .obj [("line", .num 2)]),
    ("extra", .obj [("message", .str "eval used")])]

/-- A second well-formed finding for the C2 witness, naming an unreadable
file. -/
def finding2b : Json :=
  .obj [("path", .str "db.py"), ("start", .obj [("line", .num 3)]),
    ("end", .obj [("line", .num 3)]),
    ("extra", .obj [("message", .str "sql injection")])]

/-- A generation service whose every call fails with a network error (an
absorbed failure) — used to witness C2. -/
def oracle2 : Oracle := fun _ _ => .netError "timeout"

/-- The file system of the C2 witness (only `app.py` is readable). -/
def fs2 : FSys := fun p => if p = "app.py" then some "import os\neval(x)\n" else none

/-- Witness for C2 at a concrete two-finding batch and a concrete empty
batch. -/
theorem C2_witness :
    benignCall (some "k") oracle2
    ∧ (∀ f ∈ [finding2a, finding2b], wellFormedFinding f)
    ∧ get_ai_fixes (some "k") oracle2 fs2
        (.obj [("results", .arr [finding2a, finding2b])])
        = .ok ([finding2a, finding2b].map (suggestionFor (some "k") oracle2 fs2))
    ∧ get_ai_fixes (some "k") oracle2 fs2 (.obj [("results", .arr [])])
        = .ok [] := by
  have hb : benignCall (some "k") oracle2 := fun s u => rfl
  have hwf : ∀ f ∈ [finding2a, finding2b], wellFormedFinding f := by
    intro f hf
    fin_cases hf <;> rfl
  refine ⟨hb, hwf, ?_, ?_⟩
  · exact C2_fix_generator_length_order (some "k") oracle2 fs2 _ _ rfl hb hwf
  · simpa using C2_fix_generator_length_order (some "k") oracle2 fs2
      [("results", .arr [])] [] rfl hb (by intro f hf; cases hf)

/- ------------------------------------------------------------------ -/
/- Claim C4 -/

/-- A generation service returning a 2xx response whose well-formed JSON
body lacks the expected `choices` field. -/
def oracle4 : Oracle := fun _ _ => .okJson (.obj [])

/-- The world of the C4 counterexample: full configuration, a non-empty
diff, a loadable findings document, and the wrong-shape response body. -/
def w4 : World :=
  ⟨some "k", some "t", some "o/r", some "7", some "main", .output "+x",
    .parsed (.obj [("results", .arr [])]), fun _ => none, oracle4, .success⟩

/-- C4 counterexample: a malformed response body in the shape sense — a
2xx response whose well-formed JSON body lacks `choices` — makes the
external call raise an uncaught KeyError instead of returning an error
string, and the pipeline aborts with exit code 1 and no report. -/
theorem C4_counterexample :
    call_openai (some "k") oracle4 "sys" "usr" = .error (.keyError "choices")
    ∧ main w4 = ⟨1, true, false, none⟩ :=
  ⟨rfl, rfl⟩

/-- C4 amended: a network error, a non-success HTTP response, and a
non-JSON response body are each absorbed into a human-readable error
string returned in place of the generated text, and the Summary Generator
returns that string as the summary; only a 2xx well-formed JSON body
lacking the expected nested fields escapes as an exception. -/
theorem C4_amended_absorbed (apiKey : Option String) (oracle : Oracle)
    (s u e d : String) (hk : envTruthy apiKey = true) :
    ((oracle s u = .netError e ∨ oracle s u = .httpError e
        ∨ oracle s u = .badJsonBody e) →
      call_openai apiKey oracle s u = .ok ("Error connecting to AI: " ++ e))
    ∧ ((∀ s2 u2, oracle s2 u2 = .netError e) →
      get_ai_summary apiKey oracle d = .ok ("Error connecting to AI: " ++ e)) := by
  constructor
  · rintro (h | h | h) <;> simp [call_openai, hk, h]
  · intro h
    simp [get_ai_summary, call_openai, hk, h]

/-- A generation service whose every call fails with a network error —
used to witness C4. -/
def oracle4n : Oracle := fun _ _ => .netError "connection reset"

/-- Witness for C4 at a concrete key, service, and diff. -/
theorem C4_witness :
    call_openai (some "k") oracle4n "sys" "usr"
      = .ok ("Error connecting to AI: " ++ "connection reset")
    ∧ get_ai_summary (some "k") oracle4n "+print(1)"
      = .ok ("Error connecting to AI: " ++ "connection reset") :=
  ⟨(C4_amended_absorbed (some "k") oracle4n "sys" "usr" "connection reset"
      "+print(1)" rfl).1 (Or.inl rfl),
    (C4_amended_absorbed (some "k") oracle4n "sys" "usr" "connection reset"
      "+print(1)" rfl).2 (fun _ _ => rfl)⟩

/- ------------------------------------------------------------------ -/
/- Claim C5 -/

/-- C5: the exit code is 0 exactly when the run completes through the
Publisher (delivery attempted); it is 1 when configuration is missing,
when the diff subprocess failed, and when the findings file is absent or
unloadable; and the delivery outcome never changes the run result. -/
theorem C5_exit_codes (w : World) :
    ((main w).exitCode = 0 ↔ (main w).posted = true)
    ∧ (configAll w = false → (main w).exitCode = 1)
    ∧ (∀ m, w.gitDiff = .failed m → (main w).exitCode = 1)
    ∧ ((w.scannerFile = .missing ∨ w.scannerFile = .malformed) →
        (main w).exitCode = 1)
    ∧ (∀ d, main {w with delivery := d} = main w) := by
  refine ⟨?_, ?_, ?_, ?_, fun d => ?_⟩
  · unfold main
    repeat' split
    all_goals simp
  · intro h
    unfold main
    rw [h]
    rfl
  · intro m hm
    unfold main
    rw [hm]
    split <;> rfl
  · rintro (h | h) <;>
      (unfold main; rw [h]; repeat' split) <;> simp_all [load_scanner_results]
  · cases w
    rfl

/-- A fully configured world that completes (with a failing delivery) —
used to witness C5. -/
def w5a : World :=
  ⟨some "k", some "t", some "o/r", some "7", some "main", .output "+x",
    .parsed (.obj [("results", .arr [])]), fun _ => none,
    fun _ _ => .netError "down", .failure "403 Forbidden" (some "rate limited")⟩

/-- A world with a missing environment variable — used to witness C5. -/
def w5b : World :=
  ⟨none, some "t", some "o/r", some "7", some "main", .output "+x",
    .parsed (.obj [("results", .arr [])]), fun _ => none,
    fun _ _ => .netError "down", .success⟩

/-- A world whose git diff subprocess failed — used to witness C5. -/
def w5c : World :=
  ⟨some "k", some "t", some "o/r", some "7", some "main", .failed "boom",
    .parsed (.obj [("results", .arr [])]), fun _ => none,
    fun _ _ => .netError "down", .success⟩

/-- A world whose findings file is absent — used to witness C5. -/
def w5d : World :=
  ⟨some "k", some "t", some "o/r", some "7", some "main", .output "+x",
    .missing, fun _ => none, fun _ _ => .netError "down", .success⟩

/-- Witness for C5 at concrete worlds for each clause. -/
theorem C5_witness :
    (main w5a).posted = true
    ∧ (main w5b).exitCode = 1
    ∧ (main w5c).exitCode = 1
    ∧ (main w5d).exitCode = 1
    ∧ main {w5a with delivery := .success} = main w5a :=
  ⟨((C5_exit_codes w5a).1).mp rfl,
    (C5_exit_codes w5b).2.1 rfl,
    (C5_exit_codes w5c).2.2.1 "boom" rfl,
    (C5_exit_codes w5d).2.2.2.1 (Or.inl rfl),
    (C5_exit_codes w5a).2.2.2.2 .success⟩

/- ------------------------------------------------------------------ -/
/- Claim C1 -/

/-- The world of the C1 counterexample: everything configured and a
present but JSON-malformed findings document. -/
def w1 : World :=
  ⟨some "k", some "t", some "o/r", some "7", some "main", .output "+x",
    .malformed, fun _ => none, fun _ _ => .netError "down", .success⟩

/-- C1 counterexample: a present but malformed findings document is not
treated as an empty batch — the loader yields None and the run aborts
with exit code 1, producing no report at all. -/
theorem C1_counterexample :
    load_scanner_results .malformed = none
    ∧ main w1 = ⟨1, false, false, none⟩ :=
  ⟨rfl, rfl⟩

theorem get_ai_fixes_emptyish (apiKey : Option String) (oracle : Oracle)
    (fsys : FSys) (flds : List (String × Json))
    (hre : resultsEmptyish (lookupField flds "results") = true) :
    get_ai_fixes apiKey oracle fsys (.obj flds) = .ok [] := by
  unfold get_ai_fixes
  rcases hl : lookupField flds "results" with _ | j
  · simp [pyGetD, hl, pyLen, exbind_ok]
  · rcases j with _ | b | n | s | xs | fl
    · simp [resultsEmptyish, hl] at hre
    · simp [resultsEmptyish, hl] at hre
    · simp [resultsEmptyish, hl] at hre
    · simp [pyGetD, hl, pyLen, exbind_ok]
    · rcases xs with _ | ⟨x, xs⟩
      · simp [pyGetD, hl, pyLen, exbind_ok]
      · simp [resultsEmptyish, hl] at hre
    · simp [pyGetD, hl, pyLen, exbind_ok]

/-- C1 amended: for a findings document that parses as a non-empty JSON
object whose `results` field is absent, a string, an object, or an empty
list, the run continues with an empty batch and the final Report contains
the fixed "No Anomalies Found" text; a document that is not valid JSON
instead aborts the run with exit code 1, and a `results` field that is
null, a number, or a boolean raises an uncaught TypeError. -/
theorem C1_amended_empty_batch (w : World) (flds : List (String × Json))
    (d : String) (hc : configAll w = true) (hd : w.gitDiff = .output d)
    (hne : d ≠ "") (hscan : w.scannerFile = .parsed (.obj flds))
    (hfne : flds ≠ [])
    (hre : resultsEmptyish (lookupField flds "results") = true)
    (hb : benignCall w.OPENAI_API_KEY w.oracle) :
    (main w).exitCode = 0 ∧ (main w).posted = true
    ∧ ∃ c, (main w).comment = some c
        ∧ strContains c "### ✅ No Anomalies Found" := by
  obtain ⟨t, ht⟩ : ∃ t,
      get_ai_summary w.OPENAI_API_KEY w.oracle d = .ok t := by
    have h0 := hb summarySystemPrompt ("Git Diff:\n\n" ++ d)
    rcases h1 : call_openai w.OPENAI_API_KEY w.oracle summarySystemPrompt
        ("Git Diff:\n\n" ++ d) with e | t
    · rw [h1] at h0
      exact absurd h0 (by simp [Except.isOk, Except.toBool])
    · exact ⟨t, h1⟩
  have hfix := get_ai_fixes_emptyish w.OPENAI_API_KEY w.oracle w.fsys flds hre
  have hie : flds.isEmpty = false := by
    cases flds with
    | nil => exact absurd rfl hfne
    | cons x xs => rfl
  have hmain : main w = ⟨0, true, true, some (format_final_comment t [])⟩ := by
    unfold main
    rw [hc, hd, hscan]
    simp only [Bool.not_true, Bool.false_eq_true, if_false, get_pr_diff,
      load_scanner_results, if_neg hne, jsonTruthy, hie, Bool.not_false,
      ht, hfix]
  rw [hmain]
  refine ⟨rfl, rfl, format_final_comment t [], rfl, ?_⟩
  exact strContains_appendLeft _
    ⟨"", "\n\nMy automated scan found no critical issues. Great job!", by decide⟩

/-- The world of the C1 witness: a well-formed non-empty findings document
with no `results` field. -/
def w1g : World :=
  ⟨some "k", some "t", some "o/r", some "7", some "main", .output "+x",
    .parsed (.obj [("version", .str "1.0")]), fun _ => none,
    fun _ _ => .netError "down", .success⟩

/-- Witness for C1 at the concrete `results`-less findings document. -/
theorem C1_witness :
    (main w1g).exitCode = 0 ∧ (main w1g).posted = true
    ∧ ∃ c, (main w1g).comment = some c
        ∧ strContains c "### ✅ No Anomalies Found" :=
  C1_amended_empty_batch w1g [("version", .str "1.0")] "+x" rfl rfl
    (by decide) rfl (List.cons_ne_nil _ _) rfl (fun s u => rfl)

end CodeScanAI
